import Mathlib

/-!
Shallow embedding of the crystal-ball prediction app's core:
the countdown engine (src countdown module), the vote ledger
(src/features/votes), the vote coordinator (src events module) and the
event-tracker registry (src/events/utils.js).

Modelling conventions:
* JavaScript thrown exceptions become `Except String`.
* The remote store (supabase tables, accessed through db.getFromTable /
  db.updateInTable) is a `Db` value inside a `World`; network success of
  the two db primitives is controlled by the `fetchOk` / `updateOk` flags,
  and every attempted network round-trip is appended to `netLog`.
* DOM reads/writes are modelled as emitted `DomEvent` values; templating,
  CSS and animation helpers are outside the model (the spec excludes the
  rendering layer).
* `console.warn` / `console.error` are modelled as counters in `World`.
* JavaScript numbers that can be NaN are modelled by `JsNum`; counts and
  timestamps that are always numeric are `Int` / `Nat`.
* The local timezone used by `new Date("YYYY-MM-DDT23:59:59")` is
  modelled as UTC; no claim depends on the UTC offset.
-/

deriving instance DecidableEq for Except

namespace CrystalBall

/-- A JavaScript number that may be NaN. -/
inductive JsNum where
  | num (n : Int)
  | nan
deriving Repr, DecidableEq

/-- The remaining-time breakdown emitted by the countdown engine. -/
structure TimeUnits where
  days : Nat
  hours : Nat
  minutes : Nat
  seconds : Nat
deriving Repr, DecidableEq

/-- Result of `getRemainingTimeUnits`: a breakdown plus the `next` flag. -/
structure CountdownResult where
  units : TimeUnits
  next : Bool
deriving Repr, DecidableEq

/-- DOM side effects the countdown engine performs.
`markExpired` is `setPredictionAsExpired` (adds the expired CSS class and
disables the vote buttons of the card); `renderCountdown` is the rewrite of
the countdown-items container done in the `startCountdowns` tick body. -/
inductive DomEvent where
  | markExpired (id : String)
  | renderCountdown (id : String) (units : TimeUnits) (next : Bool)
deriving Repr, DecidableEq

/-- Leap year test (Gregorian). -/
def isLeapYear (y : Nat) : Bool :=
  y % 4 = 0 && (y % 100 ≠ 0 || y % 400 = 0)

/-- Number of days in month `m` of year `y` (1-based month). -/
def daysInMonth (y m : Nat) : Nat :=
  if m = 2 then (if isLeapYear y then 29 else 28)
  else if m = 4 ∨ m = 6 ∨ m = 9 ∨ m = 11 then 30
  else 31

/-- The regex test `^\d{4}-\d{2}-\d{2}$` from `getTimestampFromDateString`. -/
def matchesDateFormat (s : String) : Bool :=
  match s.toList with
  | [y1, y2, y3, y4, '-', m1, m2, '-', d1, d2] =>
    y1.isDigit && y2.isDigit && y3.isDigit && y4.isDigit &&
    m1.isDigit && m2.isDigit && d1.isDigit && d2.isDigit
  | _ => false

/-- Digit character to value (callers guarantee `c.isDigit`). -/
def digitVal (c : Char) : Nat := c.toNat - '0'.toNat

/-- Year, month, day fields of a string that passed `matchesDateFormat`. -/
def dateComponents (s : String) : Nat × Nat × Nat :=
  match s.toList with
  | [y1, y2, y3, y4, _, m1, m2, _, d1, d2] =>
    (digitVal y1 * 1000 + digitVal y2 * 100 + digitVal y3 * 10 + digitVal y4,
     digitVal m1 * 10 + digitVal m2,
     digitVal d1 * 10 + digitVal d2)
  | _ => (0, 0, 0)

/-- Days from the Unix epoch (1970-01-01) to civil date y-m-d
(standard civil-from-days inverse, Hinnant's algorithm). -/
def daysFromCivil (y m d : Int) : Int :=
  let y' : Int := if m ≤ 2 then y - 1 else y
  let era : Int := (if 0 ≤ y' then y' else y' - 399) / 400
  let yoe : Int := y' - era * 400
  let mp : Int := (m + 9) % 12
  let doy : Int := (153 * mp + 2) / 5 + d - 1
  let doe : Int := yoe * 365 + yoe / 4 - yoe / 100 + doy
  era * 146097 + doe - 719468

/-- Millisecond timestamp of `y-m-d T23:59:59` (local time modelled as UTC). -/
def endOfDayTimestampMs (y m d : Nat) : Int :=
  daysFromCivil y m d * 86400000 + 86399000

/-- Source `new Date(dateString + "T23:59:59").getTime()` for a string in
`YYYY-MM-DD` shape: a real calendar date gives its end-of-day timestamp,
out-of-range components give an Invalid Date, whose time value is NaN. -/
def jsDateParseEndOfDay (s : String) : JsNum :=
  let (y, m, d) := dateComponents s
  if 1 ≤ m ∧ m ≤ 12 ∧ 1 ≤ d ∧ d ≤ daysInMonth y m then
    JsNum.num (endOfDayTimestampMs y m d)
  else JsNum.nan

/-- The source guard is `if (Number.isNaN(date))` where `date` is a Date
OBJECT, not a number: `Number.isNaN` returns true only for the number value
NaN, so this condition is identically false and the guard never fires. -/
def numberIsNaN_onDateObject : Bool := false

/-- Source `getTimestampFromDateString` from the countdown module: rejects strings
not matching `^\d{4}-\d{2}-\d{2}$`, then builds the end-of-day Date. The
invalid-date guard is dead (see `numberIsNaN_onDateObject`), so an
unparseable in-format date flows through as a NaN time value. -/
def getTimestampFromDateString (dateString : String) : Except String JsNum :=
  if ¬ matchesDateFormat dateString then
    Except.error ("Invalid date string format: " ++ dateString ++
      ". It has to be YYYY-MM-DD format.")
  else
    let date := jsDateParseEndOfDay dateString
    if numberIsNaN_onDateObject then
      Except.error ("Invalid date: " ++ dateString)
    else
      Except.ok date

/-- Source `getRemainingTimeUnits` from the countdown module, at wall-clock time
`now`. Returns the breakdown plus the DOM events it emits
(`setPredictionAsExpired` when the deadline is within 1000 ms). -/
def getRemainingTimeUnits (now : Int) (predictionId : String)
    (futureTimestamp : JsNum) : Except String (CountdownResult × List DomEvent) :=
  match futureTimestamp with
  | JsNum.nan => Except.error "The future timestamp is not a number"
  | JsNum.num ts =>
    if predictionId = "" then
      Except.error ("Missing or invalid parameter (predictionId): " ++ predictionId)
    else
      let diffMilliseconds : Int := ts - now
      if diffMilliseconds < 1000 then
        -- console.warn("The realization time is in the past.") and
        -- setPredictionAsExpired(predictionId)
        Except.ok ({ units := ⟨0, 0, 0, 0⟩, next := false },
                   [DomEvent.markExpired predictionId])
      else
        let diffSeconds : Nat := diffMilliseconds.toNat / 1000
        let diffMinutes : Nat := diffSeconds / 60
        let diffHours : Nat := diffMinutes / 60
        let diffDays : Nat := diffHours / 24
        Except.ok ({ units := ⟨diffDays, diffHours % 24, diffMinutes % 60,
                               diffSeconds % 60⟩,
                     next := true },
                   [])

/-- Source `getCountdownData`: deadline computation followed by the remaining-time
computation. -/
def getCountdownData (now : Int) (realizationTime : String)
    (predictionId : String) : Except String (CountdownResult × List DomEvent) :=
  match getTimestampFromDateString realizationTime with
  | Except.error e => Except.error e
  | Except.ok ts => getRemainingTimeUnits now predictionId ts

/-- A raw prediction record as consumed by `startCountdowns`. -/
structure RawPrediction where
  id : String
  realization_time : String
deriving Repr, DecidableEq

/-- One prediction's share of one `startCountdowns` tick at time `now`:
compute the countdown data (this already emits the expiry DOM signal when
expired), THEN check the `endedCountdowns` seen-set; if already ended,
return without re-rendering; otherwise record a fresh expiry and rewrite
the countdown-items container. -/
def tickOne (now : Int) (ended : List String) (p : RawPrediction) :
    Except String (List String × List DomEvent) :=
  match getCountdownData now p.realization_time p.id with
  | Except.error e => Except.error e
  | Except.ok (countdownData, ev) =>
    if ended.contains p.id then
      Except.ok (ended, ev)
    else
      let ended' := if countdownData.next then ended else ended ++ [p.id]
      Except.ok (ended',
        ev ++ [DomEvent.renderCountdown p.id countdownData.units countdownData.next])

/-- The whole tick body of `startCountdowns` (forEach over the predictions;
an exception aborts the remaining iterations). -/
def tickAll (now : Int) (ended : List String) (ps : List RawPrediction) :
    Except String (List String × List DomEvent) :=
  match ps with
  | [] => Except.ok (ended, [])
  | p :: rest =>
    match tickOne now ended p with
    | Except.error e => Except.error e
    | Except.ok (ended', ev) =>
      match tickAll now ended' rest with
      | Except.error e => Except.error e
      | Except.ok (ended'', evRest) => Except.ok (ended'', ev ++ evRest)

/-- A `startCountdowns` run observed at the given tick times: the
`endedCountdowns` seen-set starts empty and is threaded through the ticks;
the result groups the emitted DOM events per tick. -/
def runTicks (ps : List RawPrediction) (times : List Int) :
    Except String (List String × List (List DomEvent)) :=
  match times with
  | [] => Except.ok ([], [])
  | _ =>
    go [] times
where
  go (ended : List String) : List Int → Except String (List String × List (List DomEvent))
    | [] => Except.ok (ended, [])
    | t :: rest =>
      match tickAll t ended ps with
      | Except.error e => Except.error e
      | Except.ok (ended', ev) =>
        match go ended' rest with
        | Except.error e => Except.error e
        | Except.ok (ended'', evs) => Except.ok (ended'', ev :: evs)

/-! ## Vote ledger, remote store and vote coordinator -/

/-- A votes row of the remote store (the `votes` table columns). -/
structure VoteCounts where
  up_count : Int
  down_count : Int
deriving Repr, DecidableEq

/-- A JavaScript object with numeric fields, as an insertion-ordered
association list with unique keys (the shape flowing through
`getCurrentVotes` → `increaseObjectValue` → `updateVotes`). -/
abbrev VotesObj := List (String × Int)

/-- One attempted network round-trip against the remote store. -/
inductive NetCall where
  | getFromTable (table : String) (queryValue : String)
  | updateInTable (table : String) (queryValue : String) (body : VotesObj)
deriving Repr, DecidableEq

/-- The remote database: reviewed predictions (id → votesId) and the votes
table (votesId → counts); `votes:votesId (*)` joins the two. -/
structure Db where
  predictions : List (String × String)
  votes : List (String × VoteCounts)
deriving Repr, DecidableEq

/-- The world a vote action runs in: remote db plus network-success flags
for the two db primitives, the two ledger stores (raw string under the
`pids` key of the cookie and of localStorage, `none` = absent), the log of
attempted network calls, and console.warn / console.error counters. -/
structure World where
  db : Db
  fetchOk : Bool
  updateOk : Bool
  cookiePids : Option String
  localPids : Option String
  netLog : List NetCall
  warnCount : Nat
  errorCount : Nat
deriving Repr, DecidableEq

/-- Skip JSON whitespace. -/
def skipSpaces : List Char → List Char
  | [] => []
  | c :: cs =>
    if c = ' ' ∨ c = '\t' ∨ c = '\n' ∨ c = '\r' then skipSpaces cs else c :: cs

/-- Body of a JSON string literal after the opening quote (the ledger never
writes escape sequences, so none are accepted in this fragment). -/
def parseStringBody : List Char → Option (List Char × List Char)
  | [] => none
  | c :: cs =>
    if c = '"' then some ([], cs)
    else if c = '\\' then none
    else (parseStringBody cs).map (fun p => (c :: p.1, p.2))

/-- Comma-separated JSON string literals (fuel-bounded recursion). -/
def parseItems : Nat → List Char → Option (List String × List Char)
  | 0, _ => none
  | fuel + 1, cs =>
    match skipSpaces cs with
    | '"' :: rest =>
      match parseStringBody rest with
      | none => none
      | some (body, rest2) =>
        match skipSpaces rest2 with
        | ',' :: rest4 =>
          (parseItems fuel rest4).map (fun p => (String.mk body :: p.1, p.2))
        | rest3 => some ([String.mk body], rest3)
    | _ => none

/-- Source `JSON.parse` restricted to the values this module reads and writes:
an array of strings. Any other input makes JSON.parse throw (here: `none`). -/
def parseJsonStringArray (s : String) : Option (List String) :=
  match skipSpaces s.toList with
  | '[' :: rest =>
    match skipSpaces rest with
    | ']' :: tail => if skipSpaces tail = [] then some [] else none
    | _ =>
      match parseItems (s.length + 1) rest with
      | some (items, rest2) =>
        match skipSpaces rest2 with
        | ']' :: tail => if skipSpaces tail = [] then some items else none
        | _ => none
      | none => none
  | _ => none

/-- Source `JSON.stringify` of an array of plain id strings. -/
def stringifyStringArray (ids : List String) : String :=
  "[" ++ String.intercalate "," (ids.map (fun id => "\"" ++ id ++ "\"")) ++ "]"

/-- Source `getVotedPredictionIds`: regex-extract the `pids` cookie value (empty
string when absent), JSON.parse it if non-empty — the parse is UNGUARDED,
so a malformed value throws; otherwise fall back to localStorage the same
way; otherwise the empty ledger. -/
def getVotedPredictionIds (w : World) : Except String (List String) :=
  let cookieVal := w.cookiePids.getD ""
  if cookieVal ≠ "" then
    match parseJsonStringArray cookieVal with
    | some ids => Except.ok ids
    | none => Except.error ("SyntaxError: JSON.parse: " ++ cookieVal)
  else
    match w.localPids with
    | some s =>
      if s ≠ "" then
        match parseJsonStringArray s with
        | some ids => Except.ok ids
        | none => Except.error ("SyntaxError: JSON.parse: " ++ s)
      else Except.ok []
    | none => Except.ok []

/-- Source `hasVotedPrediction`: `none` models the `null` returned (after a
console.error) for an empty id — falsy at every call site, like
`some false`. A malformed ledger makes the unguarded read throw. -/
def hasVotedPrediction (w : World) (predictionId : String) :
    Except String (Option Bool) :=
  if predictionId = "" then Except.ok none
  else (getVotedPredictionIds w).map (fun ids => some (ids.contains predictionId))

/-- Source `addVotedPredictionId`: read the ledger (the unguarded parse can
throw), append the id, JSON.stringify and write the same value to both the
cookie and localStorage. -/
def addVotedPredictionId (w : World) (predictionId : String) :
    Except String World :=
  match getVotedPredictionIds w with
  | Except.error e => Except.error e
  | Except.ok ids =>
    let s := stringifyStringArray (ids ++ [predictionId])
    Except.ok { w with cookiePids := some s, localPids := some s }

/-- Source `increaseObjectValue` from src/utils: throws when the key is falsy or
not an own property; otherwise returns the spread copy with that key's
value increased (NaN guards are unrepresentable on `Int` values). -/
def increaseObjectValue (obj : VotesObj) (key : String) (increment : Int) :
    Except String VotesObj :=
  if key = "" ∨ (obj.lookup key).isNone then
    Except.error ("Invalid parameters: obj[" ++ key ++ "] does not exist.")
  else
    Except.ok (obj.map (fun p => if p.1 = key then (p.1, p.2 + increment) else p))

/-- Source `getCurrentVotes` from the api services: throws for an empty id before
any network call; then one `db.getFromTable` round-trip on
`reviewed_predictions` (logged; fails when the network fails — getFromTable
logs and rethrows), an empty result array throws, a prediction whose votes
join is null throws on destructuring, and a found row yields the
`{up_count, down_count}` object. -/
def getCurrentVotes (w : World) (predictionId : String) :
    World × Except String VotesObj :=
  if predictionId = "" then
    (w, Except.error "Invalid predictionId parameter: id is empty or invalid")
  else
    let w1 := { w with
      netLog := w.netLog ++ [NetCall.getFromTable "reviewed_predictions" predictionId] }
    if ¬ w1.fetchOk then
      ({ w1 with errorCount := w1.errorCount + 1 },
       Except.error "Error in getFromTable")
    else
      match w1.db.predictions.lookup predictionId with
      | none => (w1, Except.error "Invalid data: data is empty or invalid")
      | some votesId =>
        match w1.db.votes.lookup votesId with
        | none => (w1, Except.error "TypeError: prediction votes is null")
        | some vc =>
          (w1, Except.ok [("up_count", vc.up_count), ("down_count", vc.down_count)])

/-- The `{isSuccessful, data}` envelope returned by `updateVotes`
(`data := none` models `undefined`). -/
structure UpdateResult where
  isSuccessful : Bool
  data : Option VotesObj
deriving Repr, DecidableEq

/-- Replace the votes row at `votesId` with the fields present in `body`. -/
def updateVotesRow (votes : List (String × VoteCounts)) (votesId : String)
    (body : VotesObj) : List (String × VoteCounts) :=
  votes.map (fun q =>
    if q.1 = votesId then
      (q.1, { up_count := (body.lookup "up_count").getD q.2.up_count,
              down_count := (body.lookup "down_count").getD q.2.down_count })
    else q)

/-- Source `updateVotes` from the api services. Its whole body is inside a
try/catch, so every failure becomes `{isSuccessful := false}` after a
console.error (the db primitives also log before rethrowing). The happy
path looks up the prediction's `votesId` (a network call) and then updates
the votes row through `db.updateInTable` (a second network call). An update
matching no row returns an empty array, whose first element (`undefined`)
is still reported as success — faithful to `updatedData[0]`. -/
def updateVotes (w : World) (bodyVotes : VotesObj) (predictionId : Option String) :
    World × UpdateResult :=
  let fail := fun (w' : World) (extraLogs : Nat) =>
    ({ w' with errorCount := w'.errorCount + extraLogs },
     ({ isSuccessful := false, data := none } : UpdateResult))
  match predictionId with
  | none => fail w 1
  | some pid =>
    if pid = "" then fail w 1
    else if ¬ ((bodyVotes.lookup "up_count").isSome ∧
               (bodyVotes.lookup "down_count").isSome) then fail w 1
    else
      let w1 := { w with
        netLog := w.netLog ++ [NetCall.getFromTable "reviewed_predictions" pid] }
      if ¬ w1.fetchOk then fail w1 2
      else
        match w1.db.predictions.lookup pid with
        | none => fail w1 1
        | some votesId =>
          if votesId = "" then fail w1 1
          else
            let w2 := { w1 with
              netLog := w1.netLog ++ [NetCall.updateInTable "votes" votesId bodyVotes] }
            if ¬ w2.updateOk then fail w2 2
            else
              match w2.db.votes.lookup votesId with
              | none => (w2, { isSuccessful := true, data := none })
              | some _ =>
                let w3 := { w2 with
                  db := { w2.db with votes := updateVotesRow w2.db.votes votesId bodyVotes } }
                let newRow := (w3.db.votes.lookup votesId).getD ⟨0, 0⟩
                (w3, { isSuccessful := true,
                       data := some [("up_count", newRow.up_count),
                                     ("down_count", newRow.down_count)] })

/-- Source `updateVoteCount` from the events module: validates the id and the vote
type, increments exactly the `voteType_count` field by 1 via
`increaseObjectValue`, persists through `updateVotes` and throws when the
envelope is unsuccessful. -/
def updateVoteCount (w : World) (predictionId : String) (currentVotes : VotesObj)
    (voteType : String) : World × Except String (Option VotesObj) :=
  if predictionId = "" then
    (w, Except.error "Invalid predictionId parameter: id is empty or invalid")
  else if ¬ (voteType = "up" ∨ voteType = "down") then
    (w, Except.error ("Invalid vote type: " ++ voteType ++ ". Must be one of: up, down"))
  else
    match increaseObjectValue currentVotes (voteType ++ "_count") 1 with
    | Except.error e => (w, Except.error e)
    | Except.ok increasedVotes =>
      let r := updateVotes w increasedVotes (some predictionId)
      if ¬ r.2.isSuccessful then
        (r.1, Except.error ("votes could not be updated, predictionId: " ++ predictionId))
      else (r.1, Except.ok r.2.data)

/-- The handler's `{isCompleted}` result value. -/
structure HandlerResult where
  isCompleted : Bool
deriving Repr, DecidableEq

/-- Source `handleClickVoteBtn` from the events module (the element validations
and the post-vote template rewrite / bounce animation are DOM-only and
outside the model; `voteType` is the button's `data-vote-type` attribute).
The try/catch converts every thrown step into a console.error plus
`{isCompleted := false}`; only after a successful persist is the id
recorded in the vote ledger. -/
def handleClickVoteBtn (w : World) (predictionId : String) (voteType : String) :
    World × HandlerResult :=
  let r1 := getCurrentVotes w predictionId
  match r1.2 with
  | Except.error _ => ({ r1.1 with errorCount := r1.1.errorCount + 1 }, ⟨false⟩)
  | Except.ok currentVotes =>
    let r2 := updateVoteCount r1.1 predictionId currentVotes voteType
    match r2.2 with
    | Except.error _ => ({ r2.1 with errorCount := r2.1.errorCount + 1 }, ⟨false⟩)
    | Except.ok _updatedVotes =>
      match addVotedPredictionId r2.1 predictionId with
      | Except.error _ => ({ r2.1 with errorCount := r2.1.errorCount + 1 }, ⟨false⟩)
      | Except.ok w3 => (w3, ⟨true⟩)

/-! ## The list click handler closure and its in-flight gate

`addClickEventToPredictionList` creates one closure per call, with its own
`isActiveClick` flag. The handler body is synchronous from the click event
up to its first `await` (the swing animation); `isActiveClick` is set
before that point and reset only after `handleClickVoteBtn` resolves.
Because a click arriving while the flag is true returns immediately and
changes nothing, all the awaits between flag-set and flag-reset are
collapsed into one suspension point (`pending`), resumed by `resumeStep`. -/

/-- The closure state of one installed list click handler. -/
structure ListViewState where
  isActiveClick : Bool
deriving Repr, DecidableEq

/-- What `e.target.closest(".predictions__item-vote-button-item")` finds:
either no vote button, or a button carrying its `data-prediction-id`
(possibly empty = attribute missing) and `data-vote-type` attributes. -/
inductive ClickTarget where
  | outside
  | voteBtn (predictionId : String) (voteType : String)
deriving Repr, DecidableEq

/-- Handler closure state, world, and the suspended continuation (the id
and vote type of the in-flight vote action, if one is mid-flight). -/
structure FlightState where
  lv : ListViewState
  w : World
  pending : Option (String × String)
deriving Repr, DecidableEq

/-- The synchronous prefix of `eventHandlerFunction` run on one click:
no button or an active in-flight action → ignored; missing id → ignored;
otherwise the gate is set, the ledger is consulted — an already-voted id
warns and RETURNS WITHOUT RESETTING THE GATE, a ledger read exception
aborts the (async) handler likewise without resetting, and a fresh id
suspends at the first await with the action now in flight. -/
def clickStep (s : FlightState) (tgt : ClickTarget) : FlightState :=
  match tgt with
  | ClickTarget.outside => s
  | ClickTarget.voteBtn predictionId voteType =>
    if s.lv.isActiveClick then s
    else if predictionId = "" then s
    else
      let lv : ListViewState := ⟨true⟩
      match hasVotedPrediction s.w predictionId with
      | Except.error _ => { s with lv := lv }
      | Except.ok hasVoted =>
        if hasVoted = some true then
          { s with lv := lv,
                   w := { s.w with warnCount := s.w.warnCount + 1 } }
        else
          { lv := lv, w := s.w, pending := some (predictionId, voteType) }

/-- Resuming the suspended continuation: run `handleClickVoteBtn` to
completion (it catches its own failures) and release the gate. -/
def resumeStep (s : FlightState) : FlightState :=
  match s.pending with
  | none => s
  | some (predictionId, voteType) =>
    { lv := ⟨false⟩, w := (handleClickVoteBtn s.w predictionId voteType).1,
      pending := none }

/-- Is a network call a persist (a `db.updateInTable` round-trip)? -/
def isPersistCall : NetCall → Bool
  | NetCall.updateInTable _ _ _ => true
  | _ => false

/-- Number of persist calls in a network log. -/
def persistCount (log : List NetCall) : Nat :=
  (log.filter isPersistCall).length

/-! ## The event-tracker registry (src/events/utils.js) -/

/-- One tracked listener: the element it is attached to and the identity of
the handler closure (fresh closures get fresh ids). -/
structure TrackedEvent where
  element : Nat
  handlerId : Nat
deriving Repr, DecidableEq

/-- Source `store.eventTracker`: event name → attached listeners. -/
abbrev EventTracker := List (String × List TrackedEvent)

/-- Source `checkEvent`: is some listener for this event name already attached to
this element? -/
def checkEvent (tracker : EventTracker) (eventName : String) (element : Nat) : Bool :=
  match tracker.lookup eventName with
  | some items => items.any (fun it => it.element = element)
  | none => false

/-- Source `addEvent` with its `onceAdd = true` default: when the element already
has a listener for this event name, the new handler is NOT attached and the
tracker is returned unchanged. -/
def addEvent (tracker : EventTracker) (element : Nat) (eventName : String)
    (handlerId : Nat) (onceAdd : Bool := true) : EventTracker :=
  if onceAdd ∧ checkEvent tracker eventName element then tracker
  else
    match tracker.lookup eventName with
    | none => tracker ++ [(eventName, [⟨element, handlerId⟩])]
    | some _ =>
      tracker.map (fun p =>
        if p.1 = eventName then (p.1, p.2 ++ [⟨element, handlerId⟩]) else p)

/-- Source `addClickEventToPredictionList` as seen by the registry: it builds a
fresh closure (whose `isActiveClick` starts false) and registers it via
`addEvent` — with the `onceAdd` default in force. -/
def addClickEventToPredictionList (tracker : EventTracker)
    (predictionListEl : Nat) (freshHandlerId : Nat) : EventTracker :=
  addEvent tracker predictionListEl "click" freshHandlerId

/-! ## Concrete scenario worlds -/

/-- The end-to-end vote scenario world: prediction `p1` joined to votes row
`v1` holding `{upCount := 3, downCount := 1}`, a healthy network, and an
empty vote ledger. -/
def voteScenarioWorld : World where
  db := { predictions := [("p1", "v1")], votes := [("v1", ⟨3, 1⟩)] }
  fetchOk := true
  updateOk := true
  cookiePids := none
  localPids := none
  netLog := []
  warnCount := 0
  errorCount := 0

/-- The same world after `p1` has been voted: both ledger stores hold the
JSON array with `p1`. -/
def votedWorld : World :=
  { voteScenarioWorld with
    cookiePids := some "[\"p1\"]", localPids := some "[\"p1\"]" }

/-- A world whose cookie `pids` value is not parseable JSON. -/
def malformedLedgerWorld : World :=
  { voteScenarioWorld with cookiePids := some "not-json" }

/-- The flight state after the first click of the end-to-end scenario
(gate set, vote action suspended at its first await). -/
def voteClick1 : FlightState :=
  clickStep ⟨⟨false⟩, voteScenarioWorld, none⟩ (ClickTarget.voteBtn "p1" "up")

/-- The flight state once that vote action has run to completion. -/
def voteClick1Done : FlightState := resumeStep voteClick1

/-! ## Theorems -/

/-- C7: for a remaining time of exactly 90061000 ms (1 day, 1 hour,
1 minute, 1 second), `getRemainingTimeUnits` returns the breakdown
`{days := 1, hours := 1, minutes := 1, seconds := 1}` with the `next`
(hasNext) flag true and no expiry signal. -/
theorem countdown_exact_breakdown (now ts : Int) (pid : String)
    (hpid : pid ≠ "") (h : ts - now = 90061000) :
    getRemainingTimeUnits now pid (JsNum.num ts)
      = Except.ok ({ units := ⟨1, 1, 1, 1⟩, next := true }, []) := by
  simp [getRemainingTimeUnits, h, hpid]

/-- Witness for `countdown_exact_breakdown` at `now = 0`,
`ts = 90061000`, id `p1`. -/
theorem countdown_exact_breakdown_witness :
    getRemainingTimeUnits 0 "p1" (JsNum.num 90061000)
      = Except.ok ({ units := ⟨1, 1, 1, 1⟩, next := true }, []) :=
  countdown_exact_breakdown 0 90061000 "p1" (by decide) (by decide)

/-- C6: expiry is monotone — with a fixed deadline timestamp `ts`, if
`getRemainingTimeUnits` reports `next = false` at tick time `t1`, it
reports the zeroed, `next = false` breakdown (with the expiry signal) at
every later tick time `t2 > t1`. -/
theorem expiry_monotone (ts t1 t2 : Int) (pid : String) (r : CountdownResult)
    (ev : List DomEvent) (hlt : t1 < t2)
    (h1 : getRemainingTimeUnits t1 pid (JsNum.num ts) = Except.ok (r, ev))
    (hfalse : r.next = false) :
    getRemainingTimeUnits t2 pid (JsNum.num ts)
      = Except.ok ({ units := ⟨0, 0, 0, 0⟩, next := false },
                   [DomEvent.markExpired pid]) := by
  by_cases hpid : pid = ""
  · simp [getRemainingTimeUnits, hpid] at h1
  · by_cases hexp : ts - t1 < 1000
    · have hexp2 : ts - t2 < 1000 := by omega
      simp [getRemainingTimeUnits, hpid, hexp2]
    · simp only [getRemainingTimeUnits, if_neg hpid, if_neg hexp,
        Except.ok.injEq, Prod.mk.injEq] at h1
      obtain ⟨h1a, -⟩ := h1
      rw [← h1a] at hfalse
      simp at hfalse

/-- Witness for `expiry_monotone` at `ts = 0`, `t1 = 1`, `t2 = 2`. -/
theorem expiry_monotone_witness :
    getRemainingTimeUnits 2 "p1" (JsNum.num 0)
      = Except.ok ({ units := ⟨0, 0, 0, 0⟩, next := false },
                   [DomEvent.markExpired "p1"]) :=
  expiry_monotone 0 1 2 "p1" ⟨⟨0, 0, 0, 0⟩, false⟩ [DomEvent.markExpired "p1"]
    (by decide) (by decide) rfl

/-- C8: the deadline computation at the failing input. A wrong-format
string such as `13/31/2024` does throw, but for a string in `YYYY-MM-DD`
form that is not a real date, such as `2024-13-45`, the invalid-date guard
of `getTimestampFromDateString` never fires (`Number.isNaN` applied to a
Date object is always false), so the deadline-computation step returns a
NaN timestamp instead of throwing; the failure only surfaces in the
downstream remaining-time step with an unrelated message. -/
theorem date_parse_nan_flows_through :
    getTimestampFromDateString "13/31/2024"
      = Except.error ("Invalid date string format: 13/31/2024. It has to be YYYY-MM-DD format.") ∧
    getTimestampFromDateString "2024-13-45" = Except.ok JsNum.nan ∧
    getCountdownData 0 "2024-13-45" "p1"
      = Except.error "The future timestamp is not a number" := by
  refine ⟨rfl, ?_, rfl⟩
  decide

/-- C5 counterexample: one prediction with deadline 1970-01-01T23:59:59
(timestamp 86399000), ticked at 86399000 and 86400000. The first tick
fires the expiry transition and renders the zeroed breakdown, but the
second tick of the same run is NOT a no-op for the expired item: because
the tick body computes the countdown data (which calls
`setPredictionAsExpired`) before consulting the `endedCountdowns`
seen-set, the expiry DOM signal is re-issued on the second tick. -/
theorem expiry_signal_reissued_counterexample :
    runTicks [⟨"p1", "1970-01-01"⟩] [86399000, 86400000]
      = Except.ok (["p1"],
          [[DomEvent.markExpired "p1",
            DomEvent.renderCountdown "p1" ⟨0, 0, 0, 0⟩ false],
           [DomEvent.markExpired "p1"]]) := by
  decide

/-- C5 amended: once a prediction's ID is in the seen-set, a tick skips its
countdown re-render (no breakdown render is emitted), but does not skip the
prediction entirely — the mark-expired DOM signal is re-issued on every
tick whose remaining time is below 1000 ms; a prediction not yet in the
seen-set whose remaining time drops below 1000 ms enters the seen-set at
that tick and gets the single zeroed `next = false` breakdown render. -/
theorem expiry_rerender_skipped_but_signal_repeats
    (now : Int) (ended : List String) (p : RawPrediction) (ts : Int)
    (hts : getTimestampFromDateString p.realization_time
             = Except.ok (JsNum.num ts))
    (hpid : p.id ≠ "") :
    (ended.contains p.id = true →
      tickOne now ended p
        = Except.ok (ended,
            if ts - now < 1000 then [DomEvent.markExpired p.id] else [])) ∧
    (ended.contains p.id = false → ts - now < 1000 →
      tickOne now ended p
        = Except.ok (ended ++ [p.id],
            [DomEvent.markExpired p.id,
             DomEvent.renderCountdown p.id ⟨0, 0, 0, 0⟩ false])) := by
  constructor
  · intro hmem
    have hmem' : p.id ∈ ended := by simpa using hmem
    by_cases hexp : ts - now < 1000
    · simp [tickOne, getCountdownData, hts, getRemainingTimeUnits, hpid, hexp, hmem']
    · simp [tickOne, getCountdownData, hts, getRemainingTimeUnits, hpid, hexp, hmem']
  · intro hmem hexp
    have hmem' : p.id ∉ ended := by simpa using hmem
    simp [tickOne, getCountdownData, hts, getRemainingTimeUnits, hpid, hexp, hmem']

/-- Witness for `expiry_rerender_skipped_but_signal_repeats`: the second
tick of the counterexample run — the id already in the seen-set, remaining
time negative — emits exactly the repeated expiry signal. -/
theorem expiry_rerender_skipped_witness :
    tickOne 86400000 ["p1"] ⟨"p1", "1970-01-01"⟩
      = Except.ok (["p1"], [DomEvent.markExpired "p1"]) := by
  have h := (expiry_rerender_skipped_but_signal_repeats 86400000 ["p1"]
    ⟨"p1", "1970-01-01"⟩ 86399000 (by decide) (by decide)).1 (by decide)
  simpa using h

/-- C9 counterexample: a cookie holding `not-json` under the ledger key is
not treated as an empty ledger — the unguarded `JSON.parse` throws, the
exception escapes `getVotedPredictionIds`, and `hasVotedPrediction` does
not return false. -/
theorem ledger_malformed_read_throws :
    getVotedPredictionIds malformedLedgerWorld
      = Except.error "SyntaxError: JSON.parse: not-json" ∧
    hasVotedPrediction malformedLedgerWorld "p1"
      = Except.error "SyntaxError: JSON.parse: not-json" := by
  decide

/-- C9 amended: only an absent or empty ledger value is treated as "no
prior votes" (the empty ledger); a non-empty cookie value that is not
parseable JSON makes the ledger read throw, the exception escaping
`getVotedPredictionIds`. -/
theorem ledger_read_empty_or_throws (w : World) :
    ((w.cookiePids = none ∨ w.cookiePids = some "") →
     (w.localPids = none ∨ w.localPids = some "") →
     getVotedPredictionIds w = Except.ok []) ∧
    (∀ s, w.cookiePids = some s → s ≠ "" → parseJsonStringArray s = none →
     getVotedPredictionIds w = Except.error ("SyntaxError: JSON.parse: " ++ s)) := by
  constructor
  · intro hc hl
    rcases hc with hc | hc <;> rcases hl with hl | hl <;>
      simp [getVotedPredictionIds, hc, hl]
  · intro s hc hs hp
    simp [getVotedPredictionIds, hc, hs, hp]

/-- Witness for `ledger_read_empty_or_throws`: the pristine scenario world
reads as the empty ledger, and the malformed world throws. -/
theorem ledger_read_empty_or_throws_witness :
    getVotedPredictionIds voteScenarioWorld = Except.ok [] ∧
    getVotedPredictionIds malformedLedgerWorld
      = Except.error ("SyntaxError: JSON.parse: " ++ "not-json") :=
  ⟨(ledger_read_empty_or_throws voteScenarioWorld).1 (Or.inl rfl) (Or.inl rfl),
   (ledger_read_empty_or_throws malformedLedgerWorld).2 "not-json" rfl
     (by decide) (by decide)⟩

/-- Helper: a click on an already-voted id, with the gate open, only warns
and sets the gate, leaving everything else alone. -/
lemma clickStep_voted_warns (lv : ListViewState) (w : World)
    (pid vt : String) (hlv : lv.isActiveClick = false)
    (hvoted : hasVotedPrediction w pid = Except.ok (some true)) :
    clickStep ⟨lv, w, none⟩ (ClickTarget.voteBtn pid vt)
      = ⟨⟨true⟩, { w with warnCount := w.warnCount + 1 }, none⟩ := by
  have hpid : pid ≠ "" := by
    intro h
    rw [h] at hvoted
    simp [hasVotedPrediction] at hvoted
  simp [clickStep, hlv, hpid, hvoted]

/-- C2: when the ledger already holds the clicked prediction's ID, the
click handler aborts with a console warning before the
fetch-increment-persist sequence starts: the resulting state differs from
the input only in the warn counter (so the network log, the stored vote
counts and the ledger are untouched) and no vote action is put in flight. -/
theorem castVote_gate_respects_ledger (lv : ListViewState) (w : World)
    (pid vt : String) (hlv : lv.isActiveClick = false)
    (hvoted : hasVotedPrediction w pid = Except.ok (some true)) :
    clickStep ⟨lv, w, none⟩ (ClickTarget.voteBtn pid vt)
      = ⟨⟨true⟩, { w with warnCount := w.warnCount + 1 }, none⟩ :=
  clickStep_voted_warns lv w pid vt hlv hvoted

/-- Witness for `castVote_gate_respects_ledger` in the voted scenario
world. -/
theorem castVote_gate_respects_ledger_witness :
    clickStep ⟨⟨false⟩, votedWorld, none⟩ (ClickTarget.voteBtn "p1" "up")
      = ⟨⟨true⟩, { votedWorld with warnCount := votedWorld.warnCount + 1 },
         none⟩ :=
  castVote_gate_respects_ledger ⟨false⟩ votedWorld "p1" "up" rfl (by decide)

/-- C10 counterexample: in the voted scenario world, a vote click on the
already-voted `p1` leaves `isActiveClick` stuck at true and a later click
(on a different, unvoted prediction) is ignored with no state change — as
the claim says — but the claim's recovery clause is false: a list refresh
calls `addClickEventToPredictionList` again, and `addEvent` (with its
`onceAdd` default) refuses to attach the fresh handler 200 to element 1
because a click listener is already tracked there, so no fresh
`isActiveClick` flag is ever installed. -/
theorem stuck_gate_refresh_counterexample :
    clickStep ⟨⟨false⟩, votedWorld, none⟩ (ClickTarget.voteBtn "p1" "up")
      = ⟨⟨true⟩, { votedWorld with warnCount := votedWorld.warnCount + 1 },
         none⟩ ∧
    clickStep ⟨⟨true⟩, votedWorld, none⟩ (ClickTarget.voteBtn "p2" "up")
      = ⟨⟨true⟩, votedWorld, none⟩ ∧
    addClickEventToPredictionList [("click", [⟨1, 100⟩])] 1 200
      = [("click", [⟨1, 100⟩])] := by
  refine ⟨?_, rfl, rfl⟩
  decide

/-- C10 amended: a vote click on an already-voted prediction sets
`isActiveClick` and returns without resetting it; from then on every click
on that handler is ignored outright with no state change (hence zero
network calls); and a list refresh does NOT cure this — re-registration
through `addClickEventToPredictionList` returns the tracker unchanged for
an element that already has a click listener, so the stuck closure remains
the installed handler. -/
theorem stuck_gate_after_voted_click (w : World) (pid vt : String)
    (s : FlightState) (tgt : ClickTarget) (tracker : EventTracker)
    (el h : Nat) :
    (hasVotedPrediction w pid = Except.ok (some true) →
      clickStep ⟨⟨false⟩, w, none⟩ (ClickTarget.voteBtn pid vt)
        = ⟨⟨true⟩, { w with warnCount := w.warnCount + 1 }, none⟩) ∧
    (s.lv.isActiveClick = true → clickStep s tgt = s) ∧
    (checkEvent tracker "click" el = true →
      addClickEventToPredictionList tracker el h = tracker) := by
  refine ⟨?_, ?_, ?_⟩
  · intro hvoted
    exact clickStep_voted_warns ⟨false⟩ w pid vt rfl hvoted
  · intro hflag
    cases tgt with
    | outside => rfl
    | voteBtn p v => simp [clickStep, hflag]
  · intro hchk
    simp [addClickEventToPredictionList, addEvent, hchk]

/-- Witness for `stuck_gate_after_voted_click`: instantiated in the voted
scenario world, with a second click on `p2` against the stuck flag, and a
refresh against a tracker that already holds a click listener on the list
element. -/
theorem stuck_gate_after_voted_click_witness :
    clickStep ⟨⟨false⟩, votedWorld, none⟩ (ClickTarget.voteBtn "p1" "up")
      = ⟨⟨true⟩, { votedWorld with warnCount := votedWorld.warnCount + 1 },
         none⟩ ∧
    clickStep ⟨⟨true⟩, votedWorld, none⟩ (ClickTarget.voteBtn "p2" "down")
      = ⟨⟨true⟩, votedWorld, none⟩ ∧
    addClickEventToPredictionList [("click", [⟨1, 100⟩])] 1 300
      = [("click", [⟨1, 100⟩])] :=
  let T := stuck_gate_after_voted_click votedWorld "p1" "up"
    ⟨⟨true⟩, votedWorld, none⟩ (ClickTarget.voteBtn "p2" "down")
    [("click", [⟨1, 100⟩])] 1 300
  ⟨T.1 (by decide), T.2.1 rfl, T.2.2 (by decide)⟩

/-- C1: the end-to-end vote scenario. Starting from stored counts
`{upCount := 3, downCount := 1}` for `p1` and an empty ledger, the click
handler's fetch-increment-persist run (a) sends the remote store exactly
one persist, carrying `{upCount := 4, downCount := 1}` — the chosen count
incremented by exactly 1, the other unchanged; (b) leaves the votes table
at `{4, 1}`; (c) records `p1` in both ledger stores so `hasVoted` becomes
true; (d) rejects a second vote attempt for `p1` locally with only a warn —
no network call; and (e) had the persist failed, would NOT have recorded
`p1` in either ledger store (the ledger is written only after a successful
persist). -/
theorem vote_end_to_end :
    voteClick1Done.w.netLog
      = [NetCall.getFromTable "reviewed_predictions" "p1",
         NetCall.getFromTable "reviewed_predictions" "p1",
         NetCall.updateInTable "votes" "v1" [("up_count", 4), ("down_count", 1)]] ∧
    voteClick1Done.w.db.votes = [("v1", ⟨4, 1⟩)] ∧
    voteClick1Done.w.cookiePids = some "[\"p1\"]" ∧
    voteClick1Done.w.localPids = some "[\"p1\"]" ∧
    hasVotedPrediction voteClick1Done.w "p1" = Except.ok (some true) ∧
    clickStep voteClick1Done (ClickTarget.voteBtn "p1" "up")
      = ⟨⟨true⟩,
         { voteClick1Done.w with
             warnCount := voteClick1Done.w.warnCount + 1 }, none⟩ ∧
    (resumeStep (clickStep
        ⟨⟨false⟩, { voteScenarioWorld with updateOk := false }, none⟩
        (ClickTarget.voteBtn "p1" "up"))).w.cookiePids = none ∧
    (resumeStep (clickStep
        ⟨⟨false⟩, { voteScenarioWorld with updateOk := false }, none⟩
        (ClickTarget.voteBtn "p1" "up"))).w.localPids = none := by
  decide

/-! Helper lemmas for the failure-handling and single-in-flight claims. -/

/-- Appending network calls: persist count adds up. -/
lemma persistCount_append (a b : List NetCall) :
    persistCount (a ++ b) = persistCount a + persistCount b := by
  simp [persistCount, List.filter_append]

/-- Source `getCurrentVotes` never touches the ledger stores, the db, the
network-success flags or the warn counter, only logs a non-persist fetch,
and can only grow the error counter. -/
lemma getCurrentVotes_world_fields (w : World) (pid : String) :
    (getCurrentVotes w pid).1.cookiePids = w.cookiePids ∧
    (getCurrentVotes w pid).1.localPids = w.localPids ∧
    (getCurrentVotes w pid).1.updateOk = w.updateOk ∧
    (getCurrentVotes w pid).1.fetchOk = w.fetchOk ∧
    (getCurrentVotes w pid).1.db = w.db ∧
    w.errorCount ≤ (getCurrentVotes w pid).1.errorCount ∧
    persistCount (getCurrentVotes w pid).1.netLog = persistCount w.netLog := by
  unfold getCurrentVotes
  by_cases hpid : pid = ""
  · simp [hpid]
  · simp only [hpid, if_neg, ite_false]
    split
    · simp [persistCount_append, persistCount, isPersistCall]
    · split
      · simp [persistCount_append, persistCount, isPersistCall]
      · split <;> simp [persistCount_append, persistCount, isPersistCall]

/-- Source `updateVotes` never touches the ledger stores or the warn counter, can
only grow the error counter, attempts at most one persist, and attempts
exactly one when it reports success. -/
lemma updateVotes_world_fields (w : World) (body : VotesObj)
    (pid : Option String) :
    (updateVotes w body pid).1.cookiePids = w.cookiePids ∧
    (updateVotes w body pid).1.localPids = w.localPids ∧
    w.errorCount ≤ (updateVotes w body pid).1.errorCount ∧
    persistCount (updateVotes w body pid).1.netLog ≤ persistCount w.netLog + 1 ∧
    ((updateVotes w body pid).2.isSuccessful = true →
      persistCount (updateVotes w body pid).1.netLog
        = persistCount w.netLog + 1) := by
  unfold updateVotes
  cases pid with
  | none => simp
  | some p =>
    by_cases hp : p = ""
    · simp [hp]
    · simp only [hp, if_neg, ite_false]
      split
      · simp
      · split
        · simp [persistCount_append, persistCount, isPersistCall]
        · split
          · simp [persistCount_append, persistCount, isPersistCall]
          · split
            · simp [persistCount_append, persistCount, isPersistCall]
            · split
              · simp [persistCount_append, persistCount, isPersistCall]
              · split <;>
                  simp [persistCount_append, persistCount, isPersistCall]

/-- If the network flag for `db.updateInTable` is down, `updateVotes`
reports failure. -/
lemma updateVotes_fails_of_updateOk (w : World) (body : VotesObj)
    (pid : String) (h : w.updateOk = false) :
    (updateVotes w body (some pid)).2.isSuccessful = false := by
  unfold updateVotes
  by_cases hp : pid = ""
  · simp [hp]
  · simp only [hp, if_neg, ite_false]
    split
    · simp
    · split
      · simp
      · split
        · simp
        · split
          · simp
          · split
            · simp
            · simp_all

/-- Source `updateVoteCount` never touches the ledger stores, can only grow the
error counter, attempts at most one persist, and attempts exactly one when
it returns without throwing. -/
lemma updateVoteCount_world_fields (w : World) (pid : String)
    (cur : VotesObj) (vt : String) :
    (updateVoteCount w pid cur vt).1.cookiePids = w.cookiePids ∧
    (updateVoteCount w pid cur vt).1.localPids = w.localPids ∧
    w.errorCount ≤ (updateVoteCount w pid cur vt).1.errorCount ∧
    persistCount (updateVoteCount w pid cur vt).1.netLog
      ≤ persistCount w.netLog + 1 ∧
    (∀ v, (updateVoteCount w pid cur vt).2 = Except.ok v →
      persistCount (updateVoteCount w pid cur vt).1.netLog
        = persistCount w.netLog + 1) := by
  by_cases hp : pid = ""
  · simp [updateVoteCount, hp]
  · by_cases hvt : vt = "up" ∨ vt = "down"
    · cases hm : increaseObjectValue cur (vt ++ "_count") 1 with
      | error e => simp [updateVoteCount, hp, hvt, hm]
      | ok increased =>
        have hf := updateVotes_world_fields w increased (some pid)
        cases hs : (updateVotes w increased (some pid)).2.isSuccessful with
        | false =>
          simp only [updateVoteCount, hp, hvt, hm, hs]
          simpa using ⟨hf.1, hf.2.1, hf.2.2.1, hf.2.2.2.1⟩
        | true =>
          simp only [updateVoteCount, hp, hvt, hm, hs]
          have hpc := hf.2.2.2.2 hs
          simpa using ⟨hf.1, hf.2.1, hf.2.2.1, by omega, hpc⟩
    · simp [updateVoteCount, hp, hvt]

/-- A successful ledger write changes only the two ledger stores. -/
lemma addVotedPredictionId_ok_fields (w : World) (pid : String) (w' : World)
    (h : addVotedPredictionId w pid = Except.ok w') :
    w'.netLog = w.netLog ∧ w'.errorCount = w.errorCount := by
  unfold addVotedPredictionId at h
  cases hg : getVotedPredictionIds w with
  | error e => rw [hg] at h; cases h
  | ok ids =>
    rw [hg] at h
    cases h
    exact ⟨rfl, rfl⟩

/-- Every aborted (caught) run of `handleClickVoteBtn` leaves both ledger
stores untouched and logs at least one error. -/
lemma handleClick_failed_fields (w : World) (pid vt : String)
    (h : (handleClickVoteBtn w pid vt).2.isCompleted = false) :
    (handleClickVoteBtn w pid vt).1.cookiePids = w.cookiePids ∧
    (handleClickVoteBtn w pid vt).1.localPids = w.localPids ∧
    w.errorCount < (handleClickVoteBtn w pid vt).1.errorCount := by
  obtain ⟨hg1, hg2, -, -, -, hg6, -⟩ := getCurrentVotes_world_fields w pid
  cases hc : (getCurrentVotes w pid).2 with
  | error e =>
    simp only [handleClickVoteBtn, hc]
    exact ⟨hg1, hg2, by omega⟩
  | ok cv =>
    obtain ⟨hu1, hu2, hu3, -, -⟩ :=
      updateVoteCount_world_fields (getCurrentVotes w pid).1 pid cv vt
    cases hvc : (updateVoteCount (getCurrentVotes w pid).1 pid cv vt).2 with
    | error e =>
      simp only [handleClickVoteBtn, hc, hvc]
      exact ⟨hu1.trans hg1, hu2.trans hg2, by omega⟩
    | ok v =>
      cases ha : addVotedPredictionId
          (updateVoteCount (getCurrentVotes w pid).1 pid cv vt).1 pid with
      | error e =>
        simp only [handleClickVoteBtn, hc, hvc, ha]
        exact ⟨hu1.trans hg1, hu2.trans hg2, by omega⟩
      | ok w3 =>
        exfalso
        simp [handleClickVoteBtn, hc, hvc, ha] at h

/-- One run of `handleClickVoteBtn` attempts at most one persist call, and
exactly one when it completes successfully. -/
lemma handleClick_persist (w : World) (pid vt : String) :
    persistCount (handleClickVoteBtn w pid vt).1.netLog
      ≤ persistCount w.netLog + 1 ∧
    ((handleClickVoteBtn w pid vt).2.isCompleted = true →
      persistCount (handleClickVoteBtn w pid vt).1.netLog
        = persistCount w.netLog + 1) := by
  obtain ⟨-, -, -, -, -, -, hg7⟩ := getCurrentVotes_world_fields w pid
  cases hc : (getCurrentVotes w pid).2 with
  | error e =>
    simp only [handleClickVoteBtn, hc]
    constructor
    · omega
    · intro hcomp; simp at hcomp
  | ok cv =>
    obtain ⟨-, -, -, hu4, hu5⟩ :=
      updateVoteCount_world_fields (getCurrentVotes w pid).1 pid cv vt
    cases hvc : (updateVoteCount (getCurrentVotes w pid).1 pid cv vt).2 with
    | error e =>
      simp only [handleClickVoteBtn, hc, hvc]
      constructor
      · omega
      · intro hcomp; simp at hcomp
    | ok v =>
      have hex := hu5 v hvc
      cases ha : addVotedPredictionId
          (updateVoteCount (getCurrentVotes w pid).1 pid cv vt).1 pid with
      | error e =>
        simp only [handleClickVoteBtn, hc, hvc, ha]
        constructor
        · omega
        · intro hcomp; simp at hcomp
      | ok w3 =>
        have hw3 := addVotedPredictionId_ok_fields _ pid w3 ha
        simp only [handleClickVoteBtn, hc, hvc, ha]
        rw [hw3.1]
        constructor
        · omega
        · intro _; omega

/-- Source `getCurrentVotes` throws when the fetch network round-trip fails or the
store has no record for the id (or the id is empty). -/
lemma getCurrentVotes_err (w : World) (pid : String)
    (h : w.fetchOk = false ∨ w.db.predictions.lookup pid = none) :
    ∃ e, (getCurrentVotes w pid).2 = Except.error e := by
  by_cases hp : pid = ""
  · simp [getCurrentVotes, hp]
  · rcases h with hf | hl
    · simp [getCurrentVotes, hp, hf]
    · by_cases hf : w.fetchOk
      · simp [getCurrentVotes, hp, hf, hl]
      · simp [getCurrentVotes, hp, hf]

/-- Source `updateVoteCount` throws on a vote type other than `up` / `down`. -/
lemma updateVoteCount_err_of_vt (w : World) (pid : String) (cur : VotesObj)
    (vt : String) (hvt : ¬ (vt = "up" ∨ vt = "down")) :
    ∃ e, (updateVoteCount w pid cur vt).2 = Except.error e := by
  by_cases hp : pid = ""
  · simp [updateVoteCount, hp]
  · simp [updateVoteCount, hp, hvt]

/-- Source `updateVoteCount` throws when the persist network round-trip fails. -/
lemma updateVoteCount_err_of_updateOk (w : World) (pid : String)
    (cur : VotesObj) (vt : String) (h : w.updateOk = false) :
    ∃ e, (updateVoteCount w pid cur vt).2 = Except.error e := by
  by_cases hp : pid = ""
  · simp [updateVoteCount, hp]
  · by_cases hvt : vt = "up" ∨ vt = "down"
    · cases hm : increaseObjectValue cur (vt ++ "_count") 1 with
      | error e => exact ⟨e, by simp [updateVoteCount, hp, hvt, hm]⟩
      | ok increased =>
        have hs := updateVotes_fails_of_updateOk w increased pid h
        simp [updateVoteCount, hp, hvt, hm, hs]
    · simp [updateVoteCount, hp, hvt]

/-- A fetch failure, an invalid vote type, a persist failure, or a missing
record each make `handleClickVoteBtn` report a failed operation. -/
lemma handleClick_fails (w : World) (pid vt : String)
    (h : w.fetchOk = false ∨ (vt ≠ "up" ∧ vt ≠ "down") ∨ w.updateOk = false ∨
         w.db.predictions.lookup pid = none) :
    (handleClickVoteBtn w pid vt).2.isCompleted = false := by
  have hg := getCurrentVotes_world_fields w pid
  rcases h with hf | hvt | hup | hl
  · obtain ⟨e, he⟩ := getCurrentVotes_err w pid (Or.inl hf)
    simp [handleClickVoteBtn, he]
  · cases hc : (getCurrentVotes w pid).2 with
    | error e => simp [handleClickVoteBtn, hc]
    | ok cv =>
      obtain ⟨e, he⟩ := updateVoteCount_err_of_vt (getCurrentVotes w pid).1
        pid cv vt (by tauto)
      simp [handleClickVoteBtn, hc, he]
  · cases hc : (getCurrentVotes w pid).2 with
    | error e => simp [handleClickVoteBtn, hc]
    | ok cv =>
      obtain ⟨e, he⟩ := updateVoteCount_err_of_updateOk (getCurrentVotes w pid).1
        pid cv vt (by rw [hg.2.2.1]; exact hup)
      simp [handleClickVoteBtn, hc, he]
  · obtain ⟨e, he⟩ := getCurrentVotes_err w pid (Or.inr hl)
    simp [handleClickVoteBtn, he]

/-- C3: if any step of the vote sequence fails — the fetch of current
counts (network down or record missing), the increment (invalid vote
type), or the persist (store rejects / network down) — then the whole
action aborts: the result is the failed-operation value
`{isCompleted := false}` (returned, not thrown — `handleClickVoteBtn` is
total), the vote ledger is not written in either store, and the error is
logged. -/
theorem vote_failure_aborts (w : World) (pid vt : String)
    (h : w.fetchOk = false ∨ (vt ≠ "up" ∧ vt ≠ "down") ∨ w.updateOk = false ∨
         w.db.predictions.lookup pid = none) :
    (handleClickVoteBtn w pid vt).2.isCompleted = false ∧
    (handleClickVoteBtn w pid vt).1.cookiePids = w.cookiePids ∧
    (handleClickVoteBtn w pid vt).1.localPids = w.localPids ∧
    w.errorCount < (handleClickVoteBtn w pid vt).1.errorCount := by
  have hfail := handleClick_fails w pid vt h
  have hfields := handleClick_failed_fields w pid vt hfail
  exact ⟨hfail, hfields⟩

/-- Witness for `vote_failure_aborts`: the end-to-end scenario world with
the persist round-trip failing. -/
theorem vote_failure_aborts_witness :
    (handleClickVoteBtn { voteScenarioWorld with updateOk := false }
        "p1" "up").2.isCompleted = false ∧
    (handleClickVoteBtn { voteScenarioWorld with updateOk := false }
        "p1" "up").1.cookiePids
      = ({ voteScenarioWorld with updateOk := false } : World).cookiePids ∧
    (handleClickVoteBtn { voteScenarioWorld with updateOk := false }
        "p1" "up").1.localPids
      = ({ voteScenarioWorld with updateOk := false } : World).localPids ∧
    ({ voteScenarioWorld with updateOk := false } : World).errorCount
      < (handleClickVoteBtn { voteScenarioWorld with updateOk := false }
          "p1" "up").1.errorCount :=
  vote_failure_aborts { voteScenarioWorld with updateOk := false }
    "p1" "up" (Or.inr (Or.inr (Or.inl rfl)))

/-- C4: the single-in-flight gate. With the gate open, a click on a
not-yet-voted prediction goes in flight without touching the world; a
second rapid click on the same button while the first is mid-flight is
ignored outright (the whole state, network log included, is unchanged, and
nothing is queued); completing the first action releases the gate whether
it succeeded or failed; and across the whole scenario at most one persist
call is attempted — exactly one when the vote completes. -/
theorem single_inflight_vote (w : World) (pid vt : String) (r : Option Bool)
    (hpid : pid ≠ "") (hvote : hasVotedPrediction w pid = Except.ok r)
    (hnot : r ≠ some true) :
    clickStep ⟨⟨false⟩, w, none⟩ (ClickTarget.voteBtn pid vt)
      = ⟨⟨true⟩, w, some (pid, vt)⟩ ∧
    clickStep ⟨⟨true⟩, w, some (pid, vt)⟩ (ClickTarget.voteBtn pid vt)
      = ⟨⟨true⟩, w, some (pid, vt)⟩ ∧
    resumeStep ⟨⟨true⟩, w, some (pid, vt)⟩
      = ⟨⟨false⟩, (handleClickVoteBtn w pid vt).1, none⟩ ∧
    persistCount (handleClickVoteBtn w pid vt).1.netLog
      ≤ persistCount w.netLog + 1 ∧
    ((handleClickVoteBtn w pid vt).2.isCompleted = true →
      persistCount (handleClickVoteBtn w pid vt).1.netLog
        = persistCount w.netLog + 1) := by
  refine ⟨?_, ?_, rfl, (handleClick_persist w pid vt).1,
    (handleClick_persist w pid vt).2⟩
  · simp [clickStep, hpid, hvote, hnot]
  · simp [clickStep]

/-- Witness for `single_inflight_vote` in the end-to-end scenario world
(ledger empty, so `hasVoted` is `some false`). -/
theorem single_inflight_vote_witness :
    clickStep ⟨⟨false⟩, voteScenarioWorld, none⟩ (ClickTarget.voteBtn "p1" "up")
      = ⟨⟨true⟩, voteScenarioWorld, some ("p1", "up")⟩ ∧
    clickStep ⟨⟨true⟩, voteScenarioWorld, some ("p1", "up")⟩
        (ClickTarget.voteBtn "p1" "up")
      = ⟨⟨true⟩, voteScenarioWorld, some ("p1", "up")⟩ ∧
    resumeStep ⟨⟨true⟩, voteScenarioWorld, some ("p1", "up")⟩
      = ⟨⟨false⟩, (handleClickVoteBtn voteScenarioWorld "p1" "up").1, none⟩ ∧
    persistCount (handleClickVoteBtn voteScenarioWorld "p1" "up").1.netLog
      ≤ persistCount voteScenarioWorld.netLog + 1 ∧
    ((handleClickVoteBtn voteScenarioWorld "p1" "up").2.isCompleted = true →
      persistCount (handleClickVoteBtn voteScenarioWorld "p1" "up").1.netLog
        = persistCount voteScenarioWorld.netLog + 1) :=
  single_inflight_vote voteScenarioWorld "p1" "up" (some false)
    (by decide) (by decide) (by decide)

end CrystalBall
